import Mathlib

/-
Verification of the resilient recommendation-result cache and aggregation
pipeline of the movie-recommendation backend.

The definitions below are a shallow embedding of the in-memory cache, the
MLService class (personalized / similar / collaborative scoring operations,
per-user cache invalidation, health probe) and the per-route enrichment
aggregation, translated from src/backend/node/src/routes/auth.js
(third segment: the ml.service module, plus the recommendation routes).

Modelling conventions:
  - Timestamps are milliseconds as Nat (Date.now()).
  - The JS object `cache.data` is an association list from string keys to
    entries; `delete` removes the binding, assignment replaces it.
  - Scores are rationals (the JS numbers 0.9, 0.05, ... are exact decimals
    in the source; their arithmetic here is exact).
  - Each awaited external effect (sqlite read, axios call) is an explicit
    `Except String _` parameter: `.error e` is a rejected promise with
    message `e`, `.ok v` a fulfilled one.  The `...Run` functions are the
    `try` blocks (an `.error` result is a thrown exception escaping the
    block, paired with the cache state at the time of the throw); the
    exported `get...` functions add the `catch` handler.
-/

set_option autoImplicit false

namespace MovieRec

/-- Entry of the in-memory cache: `{ value, expiry }` where
`expiry = Date.now() + ttlSeconds * 1000` at the time of `set`. -/
structure CacheEntry (α : Type) where
  value : α
  expiry : Nat
  deriving Repr, DecidableEq

/-- The cache's backing store `cache.data`: a string-keyed map, modelled as
an association list (at most one binding per key by construction). -/
abbrev Cache (α : Type) := List (String × CacheEntry α)

/-- Lookup of `this.data[key]` (no expiry logic). -/
def cacheLookup {α : Type} : Cache α → String → Option (CacheEntry α)
  | [], _ => none
  | (k, e) :: rest, key => if k = key then some e else cacheLookup rest key

/-- Effect of `delete this.data[key]`. -/
def removeKey {α : Type} : Cache α → String → Cache α
  | [], _ => []
  | (k, e) :: rest, key =>
    if k = key then removeKey rest key else (k, e) :: removeKey rest key

/-- Embeds `cache.set(key, value, ttlSeconds)`: stores the value with
absolute expiry `now + ttlSeconds * 1000`, overwriting any entry at `key`. -/
def cacheSet {α : Type} (c : Cache α) (key : String) (v : α)
    (ttlSeconds : Nat) (now : Nat) : Cache α :=
  (key, { value := v, expiry := now + ttlSeconds * 1000 }) :: removeKey c key

/-- Embeds `cache.get(key)` at current time `now`: returns the stored value
if present and `now <= expiry`; if present but `now > expiry`, deletes the
entry and reports a miss; returns the possibly-updated store alongside. -/
def cacheGet {α : Type} (c : Cache α) (key : String) (now : Nat) :
    Option α × Cache α :=
  match cacheLookup c key with
  | none => (none, c)
  | some item =>
    if item.expiry < now then (none, removeKey c key)
    else (some item.value, c)

/-- Decides whether `sub` is a leading run of `l` (character lists). -/
def charsLead : List Char → List Char → Bool
  | [], _ => true
  | _ :: _, [] => false
  | a :: as, b :: bs => a = b && charsLead as bs

/-- Decides whether `sub` occurs contiguously inside `l` (character lists). -/
def charsWithin (sub : List Char) : List Char → Bool
  | [] => charsLead sub []
  | b :: bs => charsLead sub (b :: bs) || charsWithin sub bs

/-- Embeds the JS `key.includes(sub)` substring test. -/
def strWithin (sub s : String) : Bool :=
  charsWithin sub.toList s.toList

/-- Result shape returned by every scoring operation (and by the external
ranking service): `{ movie_ids, scores, method }`. -/
structure ScoringResult where
  movie_ids : List Nat
  scores : List ℚ
  method : String
  deriving Repr, DecidableEq

/-- Snapshot of the user's stored preference rows read on a personalized
cache miss: the `ratings` rows `(movie_id, rating)` and liked movie ids. -/
structure PrefSnapshot where
  ratings : List (Nat × Nat)
  likes : List Nat
  deriving Repr, DecidableEq

/-- Cache key `rec:user:<userId>:<limit>` used by personalized scoring. -/
def personalizedKey (userId limit : Nat) : String :=
  "rec:user:" ++ toString userId ++ ":" ++ toString limit

/-- Cache key `similar:<movieId>:<limit>` used by similarity scoring. -/
def similarKey (movieId limit : Nat) : String :=
  "similar:" ++ toString movieId ++ ":" ++ toString limit

/-- The fixed fallback list of well-known popular movie identifiers. -/
def fallbackMovieIds : List Nat :=
  [550, 278, 680, 155, 13, 423, 769, 24428, 329, 107]

/-- The static fallback result of the personalized catch branch:
ids are the fixed list `slice(0, limit)`, scores are
`Array.from(\x7blength: limit\x7d, (_, i) => 0.9 - i * 0.05)`. -/
def personalizedFallback (limit : Nat) : ScoringResult :=
  { movie_ids := fallbackMovieIds.take limit
    scores := (List.range limit).map (fun i => (9 : ℚ) / 10 - i * ((5 : ℚ) / 100))
    method := "fallback" }

/-- The empty fallback result `{ movie_ids: [], scores: [], method: "fallback" }`
returned by the similar / collaborative catch branches. -/
def emptyFallback : ScoringResult :=
  { movie_ids := [], scores := [], method := "fallback" }

/-- Try block of `getPersonalizedRecommendations(userId, limit)`:
cache probe, then the two sqlite reads (collapsed into one `dbRes` effect:
either can reject), then the ranking call; a success is written to the
cache with ttl 3600 s.  Returns the outcome and the cache state. -/
def personalizedRun (c : Cache ScoringResult) (now userId limit : Nat)
    (dbRes : Except String PrefSnapshot)
    (svc : Except String ScoringResult) :
    Except String ScoringResult × Cache ScoringResult :=
  let g := cacheGet c (personalizedKey userId limit) now
  match g.1 with
  | some cached => (.ok cached, g.2)
  | none =>
    match dbRes with
    | .error e => (.error e, g.2)
    | .ok _ =>
      match svc with
      | .error e => (.error e, g.2)
      | .ok result =>
        (.ok result, cacheSet g.2 (personalizedKey userId limit) result 3600 now)

/-- Embeds `mlService.getPersonalizedRecommendations(userId, limit)`:
the try block plus the catch branch returning the static fallback. -/
def getPersonalizedRecommendations (c : Cache ScoringResult)
    (now userId limit : Nat) (dbRes : Except String PrefSnapshot)
    (svc : Except String ScoringResult) :
    ScoringResult × Cache ScoringResult :=
  match personalizedRun c now userId limit dbRes svc with
  | (.ok r, c') => (r, c')
  | (.error _, c') => (personalizedFallback limit, c')

/-- Try block of `getSimilarMovies(movieId, limit)`: cache probe, ranking
call, success cached with ttl 7200 s. -/
def similarRun (c : Cache ScoringResult) (now movieId limit : Nat)
    (svc : Except String ScoringResult) :
    Except String ScoringResult × Cache ScoringResult :=
  let g := cacheGet c (similarKey movieId limit) now
  match g.1 with
  | some cached => (.ok cached, g.2)
  | none =>
    match svc with
    | .error e => (.error e, g.2)
    | .ok result =>
      (.ok result, cacheSet g.2 (similarKey movieId limit) result 7200 now)

/-- Embeds `mlService.getSimilarMovies(movieId, limit)`: the try block plus
the catch branch returning the empty fallback. -/
def getSimilarMovies (c : Cache ScoringResult) (now movieId limit : Nat)
    (svc : Except String ScoringResult) :
    ScoringResult × Cache ScoringResult :=
  match similarRun c now movieId limit svc with
  | (.ok r, c') => (r, c')
  | (.error _, c') => (emptyFallback, c')

/-- Try block of `getCollaborativeRecommendations(userId, limit)`: the
ratings read, the zero-ratings short circuit, then the ranking call.  The
boolean records whether the external ranking service was contacted. -/
def collaborativeRun (ratings : Except String (List (Nat × Nat)))
    (svc : Except String ScoringResult) :
    Except String ScoringResult × Bool :=
  match ratings with
  | .error e => (.error e, false)
  | .ok rs =>
    if rs.length = 0 then
      (.ok { movie_ids := [], scores := [], method := "no_data" }, false)
    else
      match svc with
      | .error e => (.error e, true)
      | .ok r => (.ok r, true)

/-- Embeds `mlService.getCollaborativeRecommendations(userId, limit)`: the
try block plus the catch branch returning the empty fallback.  The source
method never reads or writes the cache, so the cache state is threaded
through unchanged; the boolean is the service-contacted flag. -/
def getCollaborativeRecommendations (c : Cache ScoringResult)
    (userId limit : Nat) (ratings : Except String (List (Nat × Nat)))
    (svc : Except String ScoringResult) :
    ScoringResult × Bool × Cache ScoringResult :=
  match collaborativeRun ratings svc with
  | (.ok r, called) => (r, called, c)
  | (.error _, called) => (emptyFallback, called, c)

/-- Embeds `mlService.clearUserCache(userId)`: deletes every entry whose
key contains the substring `user:<userId>` (JS `key.includes(...)`). -/
def clearUserCache {α : Type} : Cache α → Nat → Cache α
  | [], _ => []
  | (k, e) :: rest, userId =>
    if strWithin ("user:" ++ toString userId) k then clearUserCache rest userId
    else (k, e) :: clearUserCache rest userId

/-- Outcome of the health probe as seen by the caller. -/
inductive HealthResult (α : Type) where
  /-- The health endpoint's payload, returned verbatim. -/
  | payload (data : α)
  /-- The synthesized degraded object `{ status: "unhealthy", error: msg }`. -/
  | unhealthy (msg : String)
  deriving Repr, DecidableEq

/-- Embeds `mlService.checkHealth()`: on success the response payload is
returned verbatim, on any failure a synthesized unhealthy object. -/
def checkHealth {α : Type} (svc : Except String α) : HealthResult α :=
  match svc with
  | .ok data => .payload data
  | .error e => .unhealthy e

/-- Embeds the per-route enrichment aggregation
(`Promise.all(mlResult.movie_ids.map(...))` followed by `filter(Boolean)`
and `count: validMovies.length`): `fetch` is the metadata service
(`none` = the axios call failed, caught per item); each surviving item is
the metadata payload paired with `mlResult.scores[index]` (which in JS is
`undefined`, here `Option.none`, when the index is out of range). -/
def enrichMovies {μ : Type} (ids : List Nat) (scores : List ℚ)
    (fetch : Nat → Option μ) : List (μ × Option ℚ) × Nat :=
  let movieDetails := ids.enum.map
    (fun p => (fetch p.2).map (fun d => (d, scores[p.1]?)))
  let validMovies := movieDetails.filterMap id
  (validMovies, validMovies.length)

/-- Sample scoring result used in concrete counterexamples and witnesses. -/
def sampleScoringResult : ScoringResult :=
  { movie_ids := [1], scores := [(1 : ℚ) / 2], method := "hybrid" }

/-- Metadata fetcher of the enrichment example: fails exactly on id 2. -/
def failAt2 : Nat → Option String :=
  fun id => if id = 2 then none else some ("m" ++ toString id)

/- Helper lemmas about the cache. -/

theorem cacheLookup_removeKey_self {α : Type} (c : Cache α) (k : String) :
    cacheLookup (removeKey c k) k = none := by
  induction c with
  | nil => rfl
  | cons hd tl ih =>
    obtain ⟨k', e⟩ := hd
    by_cases h : k' = k
    · simp [removeKey, h, ih]
    · simp [removeKey, cacheLookup, h, ih]

theorem cacheLookup_cacheSet_self {α : Type} (c : Cache α) (k : String)
    (v : α) (t now : Nat) :
    cacheLookup (cacheSet c k v t now) k =
      some { value := v, expiry := now + t * 1000 } := by
  simp [cacheSet, cacheLookup]

theorem cacheGet_miss_lookup {α : Type} (c : Cache α) (k : String) (now : Nat)
    (h : (cacheGet c k now).1 = none) :
    cacheLookup (cacheGet c k now).2 k = none := by
  unfold cacheGet at *
  cases hl : cacheLookup c k with
  | none => simp [hl]
  | some item =>
    simp only [hl] at h ⊢
    by_cases he : item.expiry < now
    · simp [he, cacheLookup_removeKey_self]
    · simp [he] at h

/-- Claim C4: for every key `k`, value `v` and ttl `t`, after
`set(k, v, t)` a `get(k)` performed before `t` has elapsed returns `v`
(leaving the store unchanged); a `get(k)` performed after `t` has elapsed
returns the miss signal `none` and leaves a store with no entry for `k`,
indistinguishable from `k` never having been set. -/
theorem C4_set_then_get {α : Type} (c : Cache α) (k : String) (v : α)
    (t now g1 g2 : Nat) (h1 : g1 < now + t * 1000) (h2 : now + t * 1000 < g2) :
    cacheGet (cacheSet c k v t now) k g1 = (some v, cacheSet c k v t now) ∧
    (cacheGet (cacheSet c k v t now) k g2).1 = none ∧
    cacheLookup (cacheGet (cacheSet c k v t now) k g2).2 k = none := by
  have hlk := cacheLookup_cacheSet_self c k v t now
  refine ⟨?_, ?_, ?_⟩
  · simp only [cacheGet, hlk]
    have : ¬ (now + t * 1000 < g1) := by omega
    simp [this]
  · simp only [cacheGet, hlk]
    simp [h2]
  · simp only [cacheGet, hlk]
    simp [h2, cacheLookup_removeKey_self]

/-- Witness for C4 at concrete inputs: key set at time 0 with ttl 1 s,
read back at 500 ms (hit) and at 2000 ms (miss, entry removed). -/
theorem C4_set_then_get_witness :
    cacheGet (cacheSet ([] : Cache Nat) "k" 5 1 0) "k" 500 =
      (some 5, cacheSet ([] : Cache Nat) "k" 5 1 0) ∧
    (cacheGet (cacheSet ([] : Cache Nat) "k" 5 1 0) "k" 2000).1 = none ∧
    cacheLookup (cacheGet (cacheSet ([] : Cache Nat) "k" 5 1 0) "k" 2000).2 "k" = none :=
  C4_set_then_get [] "k" 5 1 0 500 2000 (by decide) (by decide)

/-- Claim C10: the expiry bound is exclusive.  A `get(k)` performed at
exactly `now == setTime + t * 1000` still returns the stored value, and in
general a `get` on a present entry reports a miss iff the current time is
strictly greater than the entry's stored expiry timestamp. -/
theorem C10_expiry_exclusive {α : Type} (c c' : Cache α) (k : String)
    (v : α) (t now g : Nat) (item : CacheEntry α)
    (h : cacheLookup c' k = some item) :
    (cacheGet (cacheSet c k v t now) k (now + t * 1000)).1 = some v ∧
    ((cacheGet c' k g).1 = none ↔ item.expiry < g) := by
  constructor
  · simp [cacheGet, cacheLookup_cacheSet_self]
  · simp only [cacheGet, h]
    by_cases he : item.expiry < g <;> simp [he]

/-- Witness for C10 at concrete inputs: a value set at time 0 with ttl 1 s
is still returned at exactly 1000 ms; a stored entry expiring at 1000 ms
misses at 1500 ms. -/
theorem C10_expiry_exclusive_witness :
    (cacheGet (cacheSet ([] : Cache Nat) "k" 7 1 0) "k" 1000).1 = some 7 ∧
    ((cacheGet [("k", { value := 7, expiry := 1000 })] "k" 1500).1 = none ↔
      (1000 : Nat) < 1500) :=
  C10_expiry_exclusive [] [("k", { value := 7, expiry := 1000 })] "k" 7 1 0
    1500 { value := 7, expiry := 1000 } rfl

/-- Claim C2, counterexample: the claim that `invalidateUser(42)` leaves
every other user's entries intact is false, because key matching is by
substring.  With the cache holding exactly user 421's cached personalized
recommendations (key `rec:user:421:10`), clearing user 42 removes it. -/
theorem C2_counterexample :
    cacheLookup
      (clearUserCache
        [("rec:user:421:10", { value := sampleScoringResult, expiry := 1000 })] 42)
      "rec:user:421:10" = none := by decide

/-- Claim C2 as amended: `invalidateUser(userId)` (`clearUserCache`)
removes exactly the cache entries whose key contains the fragment
`user:<userId>` as a substring: afterwards a key containing the fragment
has no entry, and the entry of every key not containing the fragment is
exactly what it was before (so entries of users whose keys avoid the
fragment are intact, but another user whose key contains it — e.g. user
421 when clearing user 42 — also loses its entries). -/
theorem C2_invalidation_scope {α : Type} (c : Cache α) (userId : Nat)
    (key : String) :
    cacheLookup (clearUserCache c userId) key =
      if strWithin ("user:" ++ toString userId) key then none
      else cacheLookup c key := by
  induction c with
  | nil => cases h : strWithin ("user:" ++ toString userId) key <;>
      simp [clearUserCache, cacheLookup, h]
  | cons hd tl ih =>
    obtain ⟨k', e⟩ := hd
    simp only [clearUserCache]
    by_cases hk : k' = key
    · subst hk
      cases h : strWithin ("user:" ++ toString userId) k'
      · simp [cacheLookup, h, ih]
      · simp [cacheLookup, h, ih]
    · cases h : strWithin ("user:" ++ toString userId) k'
      · simp [cacheLookup, hk, h, ih]
      · simp [cacheLookup, hk, h, ih]

/-- Claim C1: evaluation at the failing input.  With an empty cache, a
successful preference read and a failing ranking call,
`getPersonalizedRecommendations(7, 11)` returns a `ScoringResult` with 10
movie ids but 11 scores: the fallback slices the fixed 10-element id list
to `limit` while generating exactly `limit` scores, so the claimed
invariant `len(movie_ids) == len(scores)` fails for every `limit > 10`. -/
theorem C1_fallback_length_mismatch :
    (getPersonalizedRecommendations [] 0 7 11
        (.ok { ratings := [], likes := [] }) (.error "timeout")).1.movie_ids.length = 10 ∧
    (getPersonalizedRecommendations [] 0 7 11
        (.ok { ratings := [], likes := [] }) (.error "timeout")).1.scores.length = 11 := by
  constructor <;> rfl

/-- Claim C3: fallback determinism.  Whenever the cache misses for user 7
with limit 5 and the ranking call fails (with any error), and whatever the
user's stored preference rows are, `getPersonalizedRecommendations(7, 5)`
returns exactly ids `[550, 278, 680, 155, 13]`, scores
`[0.90, 0.85, 0.80, 0.75, 0.70]` and method `"fallback"`. -/
theorem C3_fallback_determinism (c : Cache ScoringResult) (now : Nat)
    (prefs : PrefSnapshot) (e : String)
    (hmiss : (cacheGet c (personalizedKey 7 5) now).1 = none) :
    (getPersonalizedRecommendations c now 7 5 (.ok prefs) (.error e)).1 =
      { movie_ids := [550, 278, 680, 155, 13]
        scores := [(90 : ℚ) / 100, 85 / 100, 80 / 100, 75 / 100, 70 / 100]
        method := "fallback" } := by
  have hr : List.range 5 = [0, 1, 2, 3, 4] := rfl
  simp only [getPersonalizedRecommendations, personalizedRun, hmiss]
  simp only [personalizedFallback, fallbackMovieIds, hr, List.map_cons,
    List.map_nil, ScoringResult.mk.injEq]
  norm_num

/-- Witness for C3 at concrete inputs: empty cache at time 0 (a miss), a
user with one rating and one like, failure message "timeout". -/
theorem C3_fallback_determinism_witness :
    (getPersonalizedRecommendations [] 0 7 5
        (.ok { ratings := [(550, 5)], likes := [680] }) (.error "timeout")).1 =
      { movie_ids := [550, 278, 680, 155, 13]
        scores := [(90 : ℚ) / 100, 85 / 100, 80 / 100, 75 / 100, 70 / 100]
        method := "fallback" } :=
  C3_fallback_determinism [] 0 { ratings := [(550, 5)], likes := [680] }
    "timeout" rfl

/-- Claim C5: the Enrichment Aggregator keeps exactly the items whose
metadata fetch succeeded, in the original rank order of `movie_ids` (a
`filterMap` over the enumerated input, never re-sorted), each paired with
the score at its original index, and reports the count of survivors; in
particular for ids `[1,2,3]`, scores `[0.9, 0.8, 0.7]` and a fetcher
failing only for id 2, it yields the items of ids 1 and 3 in that order
with scores 0.9 and 0.7, and count 2. -/
theorem C5_enrichment_partial_failure :
    (∀ (μ : Type) (ids : List Nat) (scores : List ℚ) (fetch : Nat → Option μ),
      (enrichMovies ids scores fetch).2 = (enrichMovies ids scores fetch).1.length ∧
      (enrichMovies ids scores fetch).1 =
        ids.enum.filterMap (fun p => (fetch p.2).map (fun d => (d, scores[p.1]?)))) ∧
    enrichMovies [1, 2, 3] [(9 : ℚ) / 10, 8 / 10, 7 / 10] failAt2 =
      ([("m1", some ((9 : ℚ) / 10)), ("m3", some ((7 : ℚ) / 10))], 2) := by
  constructor
  · intro μ ids scores fetch
    refine ⟨rfl, ?_⟩
    simp [enrichMovies, List.filterMap_map, Function.comp]
  · rfl

/-- Claim C6: for every user and limit, a user with zero stored ratings
gets `{movie_ids: [], scores: [], method: "no_data"}` from
`getCollaborativeRecommendations` without the ranking service being
contacted (flag `false`); with non-empty ratings the service is contacted,
a failing call yields the `"fallback"`-tagged empty result and a
successful call returns the service payload verbatim. -/
theorem C6_collaborative_no_data (c : Cache ScoringResult)
    (userId limit : Nat) (svc : Except String ScoringResult)
    (rs : List (Nat × Nat)) (e : String) (r : ScoringResult)
    (h : rs ≠ []) :
    getCollaborativeRecommendations c userId limit (.ok []) svc =
      ({ movie_ids := [], scores := [], method := "no_data" }, false, c) ∧
    getCollaborativeRecommendations c userId limit (.ok rs) (.error e) =
      (emptyFallback, true, c) ∧
    getCollaborativeRecommendations c userId limit (.ok rs) (.ok r) =
      (r, true, c) := by
  refine ⟨rfl, ?_, ?_⟩ <;>
  · cases rs with
    | nil => cases h rfl
    | cons a as => simp [getCollaborativeRecommendations, collaborativeRun]

/-- Witness for C6 at concrete inputs: empty cache, user 1 with limit 10,
a non-empty ratings row list `[(550, 5)]`, failure message "down". -/
theorem C6_collaborative_no_data_witness :
    getCollaborativeRecommendations [] 1 10 (.ok []) (.ok sampleScoringResult) =
      ({ movie_ids := [], scores := [], method := "no_data" }, false, []) ∧
    getCollaborativeRecommendations [] 1 10 (.ok [(550, 5)]) (.error "down") =
      (emptyFallback, true, []) ∧
    getCollaborativeRecommendations [] 1 10 (.ok [(550, 5)]) (.ok sampleScoringResult) =
      (sampleScoringResult, true, []) :=
  C6_collaborative_no_data [] 1 10 (.ok sampleScoringResult) [(550, 5)]
    "down" sampleScoringResult (by decide)

/-- Claim C7: fallback results are never cached.  On a cache miss with a
failing ranking call, `getPersonalizedRecommendations` and
`getSimilarMovies` return the fallback together with the cache exactly as
the probe left it, and that cache has no entry for the request's key (so a
later call retries the live service); only successful responses are
cached, with ttl 3600 s (personalized) resp. 7200 s (similarity); and
`getCollaborativeRecommendations` leaves the cache untouched on every
path. -/
theorem C7_fallback_never_cached :
    (∀ (c : Cache ScoringResult) (now u l : Nat) (prefs : PrefSnapshot) (e : String),
      (cacheGet c (personalizedKey u l) now).1 = none →
      getPersonalizedRecommendations c now u l (.ok prefs) (.error e) =
        (personalizedFallback l, (cacheGet c (personalizedKey u l) now).2)) ∧
    (∀ (c : Cache ScoringResult) (now u l : Nat) (prefs : PrefSnapshot) (r : ScoringResult),
      (cacheGet c (personalizedKey u l) now).1 = none →
      getPersonalizedRecommendations c now u l (.ok prefs) (.ok r) =
        (r, cacheSet (cacheGet c (personalizedKey u l) now).2 (personalizedKey u l) r 3600 now)) ∧
    (∀ (c : Cache ScoringResult) (now m l : Nat) (e : String),
      (cacheGet c (similarKey m l) now).1 = none →
      getSimilarMovies c now m l (.error e) =
        (emptyFallback, (cacheGet c (similarKey m l) now).2)) ∧
    (∀ (c : Cache ScoringResult) (now m l : Nat) (r : ScoringResult),
      (cacheGet c (similarKey m l) now).1 = none →
      getSimilarMovies c now m l (.ok r) =
        (r, cacheSet (cacheGet c (similarKey m l) now).2 (similarKey m l) r 7200 now)) ∧
    (∀ (c : Cache ScoringResult) (u l : Nat)
        (ratings : Except String (List (Nat × Nat)))
        (svc : Except String ScoringResult),
      (getCollaborativeRecommendations c u l ratings svc).2.2 = c) ∧
    (∀ (c : Cache ScoringResult) (k : String) (now : Nat),
      (cacheGet c k now).1 = none → cacheLookup (cacheGet c k now).2 k = none) := by
  refine ⟨?_, ?_, ?_, ?_, ?_, ?_⟩
  · intro c now u l prefs e hm
    simp [getPersonalizedRecommendations, personalizedRun, hm]
  · intro c now u l prefs r hm
    simp [getPersonalizedRecommendations, personalizedRun, hm]
  · intro c now m l e hm
    simp [getSimilarMovies, similarRun, hm]
  · intro c now m l r hm
    simp [getSimilarMovies, similarRun, hm]
  · intro c u l ratings svc
    cases hr : collaborativeRun ratings svc with
    | mk res called => cases res <;> simp [getCollaborativeRecommendations, hr]
  · exact fun c k now h => cacheGet_miss_lookup c k now h

/-- Witness for C7 at concrete inputs: empty cache (a miss) at time 0,
failing calls for personalized user 7 limit 5 and similarity movie 42
limit 10, and a collaborative call leaving a one-entry cache unchanged. -/
theorem C7_fallback_never_cached_witness :
    getPersonalizedRecommendations [] 0 7 5
        (.ok { ratings := [], likes := [] }) (.error "down") =
      (personalizedFallback 5, []) ∧
    getSimilarMovies [] 0 42 10 (.error "down") = (emptyFallback, []) ∧
    (getCollaborativeRecommendations
        [("rec:user:7:5", { value := sampleScoringResult, expiry := 1000 })]
        7 5 (.error "db down") (.error "down")).2.2 =
      [("rec:user:7:5", { value := sampleScoringResult, expiry := 1000 })] :=
  ⟨C7_fallback_never_cached.1 [] 0 7 5 { ratings := [], likes := [] } "down" rfl,
   C7_fallback_never_cached.2.2.1 [] 0 42 10 "down" rfl,
   C7_fallback_never_cached.2.2.2.2.1
     [("rec:user:7:5", { value := sampleScoringResult, expiry := 1000 })]
     7 5 (.error "db down") (.error "down")⟩

/-- Claim C8: every consumer-facing operation is total and absorbs every
failure.  Even when the preference read or the outbound call fails, each
operation returns a plain well-formed value: personalized yields either
the `"fallback"`-tagged result or a cached value, similarity the empty
fallback or a cached value, collaborative the empty fallback when its
ratings read fails, invalidation of an empty cache is a no-op, and the
health probe maps a success to its payload verbatim and any failure to the
synthesized unhealthy object instead of raising. -/
theorem C8_operations_total :
    (∀ (c : Cache ScoringResult) (now userId limit : Nat) (e : String)
        (svc : Except String ScoringResult),
      ∃ r c', getPersonalizedRecommendations c now userId limit (.error e) svc = (r, c') ∧
        (r.method = "fallback" ∨
          (cacheGet c (personalizedKey userId limit) now).1 = some r)) ∧
    (∀ (c : Cache ScoringResult) (now movieId limit : Nat) (e : String),
      ∃ r c', getSimilarMovies c now movieId limit (.error e) = (r, c') ∧
        (r = emptyFallback ∨
          (cacheGet c (similarKey movieId limit) now).1 = some r)) ∧
    (∀ (c : Cache ScoringResult) (userId limit : Nat) (e : String)
        (svc : Except String ScoringResult),
      (getCollaborativeRecommendations c userId limit (.error e) svc).1 =
        emptyFallback) ∧
    (∀ userId : Nat, clearUserCache ([] : Cache ScoringResult) userId = []) ∧
    (∀ p : ScoringResult, checkHealth (.ok p) = HealthResult.payload p) ∧
    (∀ e : String,
      checkHealth (.error e : Except String ScoringResult) =
        HealthResult.unhealthy e) := by
  refine ⟨?_, ?_, ?_, ?_, ?_, ?_⟩
  · intro c now userId limit e svc
    cases hg : (cacheGet c (personalizedKey userId limit) now).1 with
    | none =>
      refine ⟨personalizedFallback limit,
        (cacheGet c (personalizedKey userId limit) now).2, ?_, Or.inl rfl⟩
      simp [getPersonalizedRecommendations, personalizedRun, hg]
    | some v =>
      refine ⟨v, (cacheGet c (personalizedKey userId limit) now).2, ?_, Or.inr rfl⟩
      simp [getPersonalizedRecommendations, personalizedRun, hg]
  · intro c now movieId limit e
    cases hg : (cacheGet c (similarKey movieId limit) now).1 with
    | none =>
      refine ⟨emptyFallback, (cacheGet c (similarKey movieId limit) now).2,
        ?_, Or.inl rfl⟩
      simp [getSimilarMovies, similarRun, hg]
    | some v =>
      refine ⟨v, (cacheGet c (similarKey movieId limit) now).2, ?_, Or.inr rfl⟩
      simp [getSimilarMovies, similarRun, hg]
  · intro c userId limit e svc
    rfl
  · intro userId
    rfl
  · intro p
    rfl
  · intro e
    rfl

end MovieRec
